import Mathlib

/-!
Shallow embedding of the resume-screening pipeline (chains.py and workflow.py).

The external collaborators (PDF document reader, reasoning oracle) are modelled
by outcome values passed as explicit parameters: each stage receives the outcome
its collaborator call would produce, and the theorems quantify over all outcomes.
Parsed oracle responses are modelled as records of optional fields, mirroring
Python dict.get semantics; an absent key is `none`. Scores are modelled as
integers.
-/

/-- Outcome of the document reader (PyPDFLoader): either extracted text, or an
exception carrying a message. -/
inductive DocOutcome where
  | ok (text : String)
  | err (msg : String)
deriving Repr, DecidableEq

/-- Outcome of one oracle chain invocation (prompt | llm | JsonOutputParser):
a transport failure (the call itself raised), a parse failure (the response was
not well-formed for the parser, which also raises), or a successfully parsed
structured response. In the Python source both failure modes surface as
exceptions from chain.invoke. -/
inductive ChainOutcome (α : Type) where
  | transportError (msg : String)
  | parseError (msg : String)
  | ok (v : α)
deriving Repr, DecidableEq

/-- Parsed extraction response: a JSON object with optional keys. An all-`none`
value models the empty dict. -/
structure ExtractResp where
  skills : Option (List String) := none
  experience : Option (List String) := none
  education : Option (List String) := none
  error : Option String := none
deriving Repr, DecidableEq

/-- Parsed matching response. -/
structure MatchResp where
  matches_ : Option (List String) := none
  gaps : Option (List String) := none
  error : Option String := none
deriving Repr, DecidableEq

/-- Parsed scoring response. -/
structure ScoreResp where
  score : Option Int := none
  reasons : Option (List String) := none
  suggestions : Option (List String) := none
  error : Option String := none
deriving Repr, DecidableEq

/-- ScreeningState from workflow.py. -/
structure ScreeningState where
  jd : String
  resume_file_path : String
  resume_text : String
  resume_data : ExtractResp
  match_data : MatchResp
  score : Int
  reasons : List String
  suggestions : List String
  candidate_name : String
  error : String
deriving Repr, DecidableEq

/-- chains.extract_resume_data: returns the parsed response, or on any
exception from the chain (transport or parse) the default dict with empty
lists and the exception message under the error key. -/
def extract_resume_data (resume_text : String) (o : ChainOutcome ExtractResp) :
    ExtractResp :=
  match o with
  | .ok v => v
  | .transportError e =>
      { skills := some [], experience := some [], education := some [],
        error := some e }
  | .parseError e =>
      { skills := some [], experience := some [], education := some [],
        error := some e }

/-- chains.match_to_jd: returns the parsed response, or on any exception the
default dict with empty matches_ and gaps and the exception message. -/
def match_to_jd (jd : String) (resume_data : ExtractResp)
    (o : ChainOutcome MatchResp) : MatchResp :=
  match o with
  | .ok v => v
  | .transportError e => { matches_ := some [], gaps := some [], error := some e }
  | .parseError e => { matches_ := some [], gaps := some [], error := some e }

/-- chains.score_candidate: returns the parsed response, or on any exception
the default dict with score 0, a placeholder reason, empty suggestions and the
exception message. -/
def score_candidate (jd : String) (resume_data : ExtractResp)
    (match_data : MatchResp) (o : ChainOutcome ScoreResp) : ScoreResp :=
  match o with
  | .ok v => v
  | .transportError e =>
      { score := some 0, reasons := some ["Error in scoring"],
        suggestions := some [], error := some e }
  | .parseError e =>
      { score := some 0, reasons := some ["Error in scoring"],
        suggestions := some [], error := some e }

/-- The test `not resume_text.strip()` of the source: the text is empty or
consists only of whitespace. -/
def isBlank (text : String) : Bool :=
  text.toList.all Char.isWhitespace

/-- workflow.load_resume: extract text from the PDF; empty or whitespace-only
text and loader exceptions are captured into the error field. -/
def load_resume (doc : DocOutcome) (state : ScreeningState) : ScreeningState :=
  match doc with
  | .ok text =>
      if isBlank text then
        { state with error := "Empty PDF or failed to extract text",
                     resume_text := "" }
      else
        { state with resume_text := text, error := "" }
  | .err e =>
      { state with error := "PDF loading error: " ++ e, resume_text := "" }

/-- workflow.extract_data: short-circuits on a pre-set error; otherwise calls
the extraction wrapper, stores its result, and tags any reported error. The
except branch of the source (tag "Data extraction error") only fires when the
wrapper itself raises, which it cannot since it catches every exception, so it
has no counterpart here. -/
def extract_data (o : ChainOutcome ExtractResp) (state : ScreeningState) :
    ScreeningState :=
  if state.error ≠ "" then state
  else
    let resume_data := extract_resume_data state.resume_text o
    match resume_data.error with
    | some e =>
        { state with resume_data := resume_data,
                     error := "Extraction error: " ++ e }
    | none => { state with resume_data := resume_data }

/-- workflow.match_jd: short-circuits on a pre-set error; otherwise calls the
matching wrapper, stores its result, and tags any reported error. As in
extract_data, the except branch (tag "JD matching error") is unreachable. -/
def match_jd (o : ChainOutcome MatchResp) (state : ScreeningState) :
    ScreeningState :=
  if state.error ≠ "" then state
  else
    let match_data := match_to_jd state.jd state.resume_data o
    match match_data.error with
    | some e =>
        { state with match_data := match_data,
                     error := "Matching error: " ++ e }
    | none => { state with match_data := match_data }

/-- workflow.score_candidate_node: on a pre-set error, force score 0 with an
explanatory reason and empty suggestions; otherwise take score, reasons and
suggestions from the wrapper result with defaults, then tag any reported
error. -/
def score_candidate_node (o : ChainOutcome ScoreResp) (state : ScreeningState) :
    ScreeningState :=
  if state.error ≠ "" then
    { state with score := 0,
                 reasons := ["Processing failed: " ++ state.error],
                 suggestions := [] }
  else
    let score_data := score_candidate state.jd state.resume_data
      state.match_data o
    let state1 := { state with
      score := score_data.score.getD 0,
      reasons := score_data.reasons.getD [],
      suggestions := score_data.suggestions.getD [] }
    match score_data.error with
    | some e => { state1 with error := "Scoring error: " ++ e }
    | none => state1

/-- workflow.should_suggest_improvements: conditional edge predicate. -/
def should_suggest_improvements (state : ScreeningState) : String :=
  if state.score < 50 then "suggest" else "end"

/-- workflow.suggest_improvements: if suggestions is empty, derive up to three
suggestions from match_data gaps, or fall back to a single generic one. -/
def suggest_improvements (state : ScreeningState) : ScreeningState :=
  if state.suggestions = [] then
    let gaps := state.match_data.gaps.getD []
    if gaps ≠ [] then
      { state with suggestions :=
          (gaps.take 3).map (fun gap => "Develop skills/experience in: " ++ gap) }
    else
      { state with suggestions := ["Consider gaining more relevant experience"] }
  else state

/-- The behaviour of the external collaborators for one resume run: one
document-reader outcome and one outcome per oracle chain. -/
structure OracleEnv where
  doc : DocOutcome
  extractO : ChainOutcome ExtractResp
  matchO : ChainOutcome MatchResp
  scoreO : ChainOutcome ScoreResp
deriving Repr, DecidableEq

/-- The compiled LangGraph workflow: load_resume, extract_data, match_jd,
score_candidate in sequence, then the conditional edge into
suggest_improvements when the predicate says "suggest", else directly to
END. -/
def runWorkflow (env : OracleEnv) (state : ScreeningState) : ScreeningState :=
  let s1 := load_resume env.doc state
  let s2 := extract_data env.extractO s1
  let s3 := match_jd env.matchO s2
  let s4 := score_candidate_node env.scoreO s3
  if should_suggest_improvements s4 = "suggest" then suggest_improvements s4
  else s4

/-- The initial state built by workflow.process_resume. -/
def initialState (jd resume_file_path candidate_name : String) :
    ScreeningState :=
  { jd := jd, resume_file_path := resume_file_path, resume_text := "",
    resume_data := {}, match_data := {}, score := 0, reasons := [],
    suggestions := [], candidate_name := candidate_name, error := "" }

/-- The output record process_resume projects from the final state. -/
structure ResultRecord where
  candidate : String
  score : Int
  reasons : List String
  suggestions : List String
  matches_ : List String
  gaps : List String
  error : String
deriving Repr, DecidableEq

/-- workflow.process_resume: run the workflow on a fresh initial state and
project the final state into the output record. -/
def process_resume (env : OracleEnv) (jd resume_file_path candidate_name :
    String) : ResultRecord :=
  let result := runWorkflow env
    (initialState jd resume_file_path candidate_name)
  { candidate := candidate_name,
    score := result.score,
    reasons := result.reasons,
    suggestions := result.suggestions,
    matches_ := result.match_data.matches_.getD [],
    gaps := result.match_data.gaps.getD [],
    error := result.error }

/-- Loop body of workflow.process_multiple_resumes: process the files in
order, the collaborator behaviour for the i-th resume given by the
environment at index i. -/
def processFilesFrom (jd : String) (env : Nat → OracleEnv) :
    Nat → List (String × String) → List ResultRecord
  | _, [] => []
  | i, (file_name, file_content) :: rest =>
      process_resume (env i) jd file_content file_name ::
        processFilesFrom jd env (i + 1) rest

/-- workflow.process_multiple_resumes: one result per input pair, appended in
input order. The temporary file holding the content is abstracted away: the
document reader sees it through the per-resume environment. -/
def process_multiple_resumes (jd : String) (resume_files :
    List (String × String)) (env : Nat → OracleEnv) : List ResultRecord :=
  processFilesFrom jd env 0 resume_files

/-! ## Helper lemmas -/

/-- suggest_improvements only ever writes the suggestions field. -/
theorem suggest_improvements_preserves (s : ScreeningState) :
    (suggest_improvements s).score = s.score ∧
    (suggest_improvements s).reasons = s.reasons ∧
    (suggest_improvements s).error = s.error ∧
    (suggest_improvements s).match_data = s.match_data := by
  unfold suggest_improvements
  by_cases h1 : s.suggestions = [] <;> simp only [h1, if_true, if_false]
  · by_cases h2 : s.match_data.gaps.getD [] = [] <;> simp [h2]
  · simp [h1]

/-- The score, reasons and error of a full run are those of the state leaving
the scoring stage: the optional final stage only writes suggestions. -/
theorem runWorkflow_core_fields (env : OracleEnv) (s : ScreeningState) :
    (runWorkflow env s).score =
      (score_candidate_node env.scoreO (match_jd env.matchO
        (extract_data env.extractO (load_resume env.doc s)))).score ∧
    (runWorkflow env s).reasons =
      (score_candidate_node env.scoreO (match_jd env.matchO
        (extract_data env.extractO (load_resume env.doc s)))).reasons ∧
    (runWorkflow env s).error =
      (score_candidate_node env.scoreO (match_jd env.matchO
        (extract_data env.extractO (load_resume env.doc s)))).error := by
  unfold runWorkflow
  dsimp only
  split
  · exact ⟨(suggest_improvements_preserves _).1,
      (suggest_improvements_preserves _).2.1,
      (suggest_improvements_preserves _).2.2.1⟩
  · exact ⟨rfl, rfl, rfl⟩

/-! ## Claims -/

/-- C1: a state entering the scoring stage with a non-empty error field comes
out with score 0, reasons equal to the single entry prefixed with
"Processing failed: " followed by the error, empty suggestions, and every
other field (error included) unchanged. -/
theorem score_node_error_branch (o : ChainOutcome ScoreResp)
    (s : ScreeningState) (h : s.error ≠ "") :
    score_candidate_node o s =
      { s with score := 0,
               reasons := ["Processing failed: " ++ s.error],
               suggestions := [] } := by
  unfold score_candidate_node
  simp [h]

/-- A concrete instance of the C1 theorem. -/
theorem score_node_error_branch_witness :
    score_candidate_node (ChainOutcome.ok {})
      { jd := "jd", resume_file_path := "p", resume_text := "", resume_data := {},
        match_data := {}, score := 7, reasons := ["old"], suggestions := ["keep"],
        candidate_name := "c", error := "boom" } =
      { jd := "jd", resume_file_path := "p", resume_text := "", resume_data := {},
        match_data := {}, score := 0, reasons := ["Processing failed: boom"],
        suggestions := [], candidate_name := "c", error := "boom" } :=
  score_node_error_branch (ChainOutcome.ok {}) _ (by decide)

/-- C4: the branch out of the scoring stage enters suggest_improvements
exactly when the score is below 50; at 50 or above the run ends with the
state leaving the scoring stage, so suggestions are exactly those produced by
scoring. -/
theorem workflow_conditional_branch (env : OracleEnv) (s s4 : ScreeningState)
    (h : s4 = score_candidate_node env.scoreO (match_jd env.matchO
      (extract_data env.extractO (load_resume env.doc s)))) :
    (should_suggest_improvements s4 = "suggest" ↔ s4.score < 50) ∧
    (s4.score < 50 → runWorkflow env s = suggest_improvements s4) ∧
    (50 ≤ s4.score → runWorkflow env s = s4 ∧
      (runWorkflow env s).suggestions = s4.suggestions) := by
  subst h
  unfold runWorkflow should_suggest_improvements
  by_cases hlt : (score_candidate_node env.scoreO (match_jd env.matchO
      (extract_data env.extractO (load_resume env.doc s)))).score < 50
  · simp [hlt]
  · simp [hlt]

/-- A concrete instance of the C4 theorem: a score of 82 skips the
improvement stage and leaves suggestions exactly as scored. -/
theorem workflow_conditional_branch_witness :
    runWorkflow
      { doc := DocOutcome.ok "resume text",
        extractO := ChainOutcome.ok {},
        matchO := ChainOutcome.ok {},
        scoreO := ChainOutcome.ok
          { score := some 82, reasons := some ["strong skill match"],
            suggestions := some [] } }
      (initialState "jd" "p" "c") =
    score_candidate_node
      (ChainOutcome.ok
        { score := some 82, reasons := some ["strong skill match"],
          suggestions := some [] })
      (match_jd (ChainOutcome.ok {})
        (extract_data (ChainOutcome.ok {})
          (load_resume (DocOutcome.ok "resume text")
            (initialState "jd" "p" "c")))) :=
  ((workflow_conditional_branch _ (initialState "jd" "p" "c") _
    rfl).2.2 (by decide)).1

/-- C5: entering the improvement stage with empty suggestions, non-empty gaps
yield the first min 3 gaps rendered through the template, and empty gaps
yield the single generic fallback. -/
theorem suggest_improvements_derivation (s : ScreeningState)
    (h : s.suggestions = []) :
    (s.match_data.gaps.getD [] ≠ [] →
      (suggest_improvements s).suggestions =
        ((s.match_data.gaps.getD []).take 3).map
          (fun gap => "Develop skills/experience in: " ++ gap) ∧
      (suggest_improvements s).suggestions.length =
        min 3 (s.match_data.gaps.getD []).length) ∧
    (s.match_data.gaps.getD [] = [] →
      (suggest_improvements s).suggestions =
        ["Consider gaining more relevant experience"]) := by
  unfold suggest_improvements
  by_cases h2 : s.match_data.gaps.getD [] = [] <;>
    simp [h, h2, List.length_take]

/-- A concrete instance of the C5 theorem: five gaps produce exactly the
first three rendered suggestions. -/
theorem suggest_improvements_derivation_witness :
    (suggest_improvements
      { jd := "jd", resume_file_path := "p", resume_text := "t",
        resume_data := {},
        match_data := { gaps := some ["Kubernetes", "AWS", "Leadership",
          "Security", "Testing"] },
        score := 35, reasons := ["r"], suggestions := [],
        candidate_name := "c", error := "" }).suggestions =
      ["Develop skills/experience in: Kubernetes",
       "Develop skills/experience in: AWS",
       "Develop skills/experience in: Leadership"] :=
  ((suggest_improvements_derivation _ rfl).1 (by decide)).1

/-- C6: the improvement stage leaves a state with non-empty suggestions
unchanged, and applying it twice always equals applying it once. -/
theorem suggest_improvements_idempotent (s : ScreeningState) :
    (s.suggestions ≠ [] → suggest_improvements s = s) ∧
    suggest_improvements (suggest_improvements s) = suggest_improvements s := by
  constructor
  · intro h
    unfold suggest_improvements
    simp [h]
  · by_cases h1 : s.suggestions = []
    · unfold suggest_improvements
      by_cases h2 : s.match_data.gaps.getD [] = [] <;> simp [h1, h2]
    · unfold suggest_improvements
      simp [h1]

/-- A concrete instance of the C6 theorem. -/
theorem suggest_improvements_idempotent_witness :
    suggest_improvements
      { jd := "jd", resume_file_path := "p", resume_text := "t",
        resume_data := {}, match_data := { gaps := some ["AWS"] },
        score := 10, reasons := [], suggestions := ["already here"],
        candidate_name := "c", error := "" } =
      { jd := "jd", resume_file_path := "p", resume_text := "t",
        resume_data := {}, match_data := { gaps := some ["AWS"] },
        score := 10, reasons := [], suggestions := ["already here"],
        candidate_name := "c", error := "" } :=
  (suggest_improvements_idempotent _).1 (by decide)

/-- C7 counterexample: load_resume overwrites the error field unconditionally,
so a successful load clears a pre-existing error instead of keeping it
non-empty. -/
theorem load_resume_clears_preset_error :
    ({ jd := "jd", resume_file_path := "p", resume_text := "",
       resume_data := {}, match_data := {}, score := 0, reasons := [],
       suggestions := [], candidate_name := "c",
       error := "earlier failure" } : ScreeningState).error ≠ "" ∧
    (load_resume (DocOutcome.ok "some resume text")
      { jd := "jd", resume_file_path := "p", resume_text := "",
        resume_data := {}, match_data := {}, score := 0, reasons := [],
        suggestions := [], candidate_name := "c",
        error := "earlier failure" }).error = "" := by
  constructor
  · decide
  · decide

/-- C7 amended: every stage after the entry stage keeps a pre-set error
exactly as it is; load_resume is excluded because it overwrites error from
the document-reader outcome (harmless in the pipeline, whose initial state
has an empty error). -/
theorem error_sticky_after_load (oE : ChainOutcome ExtractResp)
    (oM : ChainOutcome MatchResp) (oS : ChainOutcome ScoreResp)
    (s : ScreeningState) (h : s.error ≠ "") :
    (extract_data oE s).error = s.error ∧
    (match_jd oM s).error = s.error ∧
    (score_candidate_node oS s).error = s.error ∧
    (suggest_improvements s).error = s.error := by
  refine ⟨?_, ?_, ?_, (suggest_improvements_preserves s).2.2.1⟩
  · unfold extract_data
    simp [h]
  · unfold match_jd
    simp [h]
  · unfold score_candidate_node
    simp [h]

/-- A concrete instance of the C7 amended theorem. -/
theorem error_sticky_after_load_witness :
    (extract_data (ChainOutcome.ok {})
      { jd := "jd", resume_file_path := "p", resume_text := "t",
        resume_data := {}, match_data := {}, score := 0, reasons := [],
        suggestions := [], candidate_name := "c",
        error := "boom" }).error = "boom" :=
  (error_sticky_after_load (ChainOutcome.ok {}) (ChainOutcome.ok {})
    (ChainOutcome.ok {}) _ (by decide)).1

/-- C8 counterexample: on a transport failure of the extraction oracle call,
the stage tags the error "Extraction error" (not "Data extraction error") and
stores the wrapper default profile, which is not the empty object. -/
theorem extract_data_transport_tag_counterexample :
    (extract_data (ChainOutcome.transportError "timeout")
      { jd := "jd", resume_file_path := "p", resume_text := "resume text",
        resume_data := {}, match_data := {}, score := 0, reasons := [],
        suggestions := [], candidate_name := "c", error := "" }).error =
      "Extraction error: timeout" ∧
    (extract_data (ChainOutcome.transportError "timeout")
      { jd := "jd", resume_file_path := "p", resume_text := "resume text",
        resume_data := {}, match_data := {}, score := 0, reasons := [],
        suggestions := [], candidate_name := "c", error := "" }).error ≠
      "Data extraction error: timeout" ∧
    (extract_data (ChainOutcome.transportError "timeout")
      { jd := "jd", resume_file_path := "p", resume_text := "resume text",
        resume_data := {}, match_data := {}, score := 0, reasons := [],
        suggestions := [], candidate_name := "c", error := "" }).resume_data ≠
      ({} : ExtractResp) := by
  refine ⟨by decide, by decide, by decide⟩

/-- C8 amended: on any failure of the extraction call, transport or parse
alike, the stage stores the wrapper default profile (empty skills, experience
and education lists plus the message under the error key) and sets the error
to the message tagged "Extraction error"; the "Data extraction error" tag of
the source belongs to an unreachable handler. -/
theorem extract_data_failure_defaults (m : String) (s : ScreeningState)
    (h : s.error = "") :
    extract_data (ChainOutcome.transportError m) s =
      { s with
        resume_data :=
          ({ skills := some [], experience := some [], education := some [],
             error := some m } : ExtractResp),
        error := "Extraction error: " ++ m } ∧
    extract_data (ChainOutcome.parseError m) s =
      { s with
        resume_data :=
          ({ skills := some [], experience := some [], education := some [],
             error := some m } : ExtractResp),
        error := "Extraction error: " ++ m } := by
  unfold extract_data extract_resume_data
  simp [h]

/-- A concrete instance of the C8 amended theorem. -/
theorem extract_data_failure_defaults_witness :
    extract_data (ChainOutcome.transportError "timeout")
      { jd := "jd", resume_file_path := "p", resume_text := "resume text",
        resume_data := {}, match_data := {}, score := 0, reasons := [],
        suggestions := [], candidate_name := "c", error := "" } =
      { jd := "jd", resume_file_path := "p", resume_text := "resume text",
        resume_data :=
          ({ skills := some [], experience := some [], education := some [],
             error := some "timeout" } : ExtractResp),
        match_data := {}, score := 0, reasons := [], suggestions := [],
        candidate_name := "c", error := "Extraction error: timeout" } := by
  have h := (extract_data_failure_defaults "timeout"
    { jd := "jd", resume_file_path := "p", resume_text := "resume text",
      resume_data := {}, match_data := {}, score := 0, reasons := [],
      suggestions := [], candidate_name := "c", error := "" } rfl).1
  simpa using h

/-- Case analysis of the error sources in the scoring stage: a non-empty
error on the way out means either an upstream error (score forced to 0 with
the explanatory reason), a failed scoring call (wrapper defaults: score 0 and
the placeholder reason), or an error key inside a successfully parsed scoring
response, in which case score and reasons are whatever the response said. -/
theorem score_node_error_cases (o : ChainOutcome ScoreResp)
    (s : ScreeningState) (h : (score_candidate_node o s).error ≠ "") :
    ((score_candidate_node o s).score = 0 ∧
      (score_candidate_node o s).reasons =
        ["Processing failed: " ++ (score_candidate_node o s).error]) ∨
    ((score_candidate_node o s).score = 0 ∧
      (score_candidate_node o s).reasons = ["Error in scoring"]) ∨
    (∃ sr, o = ChainOutcome.ok sr ∧ sr.error.isSome ∧
      (score_candidate_node o s).score = sr.score.getD 0 ∧
      (score_candidate_node o s).reasons = sr.reasons.getD []) := by
  by_cases he : s.error = ""
  · cases o with
    | transportError m =>
        right; left
        unfold score_candidate_node score_candidate
        simp [he]
    | parseError m =>
        right; left
        unfold score_candidate_node score_candidate
        simp [he]
    | ok sr =>
        right; right
        refine ⟨sr, rfl, ?_⟩
        cases hsr : sr.error with
        | none =>
            exfalso
            apply h
            unfold score_candidate_node score_candidate
            simp [he, hsr]
        | some e =>
            unfold score_candidate_node score_candidate
            simp [he, hsr]
  · left
    unfold score_candidate_node
    simp [he]

/-- An oracle run whose scoring call parses successfully into a response that
carries both a passing score and an error key. -/
def envScoredErrorKey : OracleEnv :=
  { doc := DocOutcome.ok "resume text",
    extractO := ChainOutcome.ok {},
    matchO := ChainOutcome.ok {},
    scoreO := ChainOutcome.ok
      ({ score := some 75, reasons := some ["great fit"],
         suggestions := some [], error := some "oops" } : ScoreResp) }

/-- C2 counterexample: a parsed scoring response carrying an error key next
to a score of 75 leaves the final state with a non-empty error but a
non-zero score, because the node copies the score before tagging the
error. -/
theorem process_error_nonzero_score_counterexample :
    (process_resume envScoredErrorKey "jd" "p" "c").error ≠ "" ∧
    (process_resume envScoredErrorKey "jd" "p" "c").score = 75 := by
  constructor
  · decide
  · decide

/-- C2 amended: a non-empty final error means the score is 0 —
with reasons naming the upstream failure, or with the wrapper placeholder
reason when the scoring call failed — except when the error comes from an
error key inside a successfully parsed scoring response, in which case score
and reasons are taken from that response and need not be 0. -/
theorem final_error_score_cases (env : OracleEnv) (jd path name : String)
    (h : (process_resume env jd path name).error ≠ "") :
    ((process_resume env jd path name).score = 0 ∧
      (process_resume env jd path name).reasons =
        ["Processing failed: " ++ (process_resume env jd path name).error]) ∨
    ((process_resume env jd path name).score = 0 ∧
      (process_resume env jd path name).reasons = ["Error in scoring"]) ∨
    (∃ sr, env.scoreO = ChainOutcome.ok sr ∧ sr.error.isSome ∧
      (process_resume env jd path name).score = sr.score.getD 0 ∧
      (process_resume env jd path name).reasons = sr.reasons.getD []) := by
  obtain ⟨h1, h2, h3⟩ := runWorkflow_core_fields env (initialState jd path name)
  have e1 : (process_resume env jd path name).score =
      (runWorkflow env (initialState jd path name)).score := rfl
  have e2 : (process_resume env jd path name).reasons =
      (runWorkflow env (initialState jd path name)).reasons := rfl
  have e3 : (process_resume env jd path name).error =
      (runWorkflow env (initialState jd path name)).error := rfl
  rw [e3, h3] at h
  rw [e1, e2, e3, h1, h2, h3]
  exact score_node_error_cases env.scoreO _ h

/-- A concrete instance of the C2 amended theorem, at the environment of the
counterexample: the third case applies. -/
theorem final_error_score_cases_witness :
    ((process_resume envScoredErrorKey "jd" "p" "c").score = 0 ∧
      (process_resume envScoredErrorKey "jd" "p" "c").reasons =
        ["Processing failed: " ++
          (process_resume envScoredErrorKey "jd" "p" "c").error]) ∨
    ((process_resume envScoredErrorKey "jd" "p" "c").score = 0 ∧
      (process_resume envScoredErrorKey "jd" "p" "c").reasons =
        ["Error in scoring"]) ∨
    (∃ sr, envScoredErrorKey.scoreO = ChainOutcome.ok sr ∧ sr.error.isSome ∧
      (process_resume envScoredErrorKey "jd" "p" "c").score = sr.score.getD 0 ∧
      (process_resume envScoredErrorKey "jd" "p" "c").reasons =
        sr.reasons.getD []) :=
  final_error_score_cases envScoredErrorKey "jd" "p" "c" (by decide)

/-- An oracle run whose scoring call parses successfully into a response with
an out-of-range score. -/
def envScore250 : OracleEnv :=
  { doc := DocOutcome.ok "resume text",
    extractO := ChainOutcome.ok {},
    matchO := ChainOutcome.ok {},
    scoreO := ChainOutcome.ok
      ({ score := some 250, reasons := some ["overshoot"],
         suggestions := some [] } : ScoreResp) }

/-- C3 counterexample: the node copies the oracle score without clamping, so
a parsed response scoring 250 yields a final score of 250, outside the range
0 to 100. -/
theorem score_range_counterexample :
    (process_resume envScore250 "jd" "p" "c").score = 250 ∧
    ¬ (process_resume envScore250 "jd" "p" "c").score ≤ 100 := by
  constructor
  · decide
  · decide

/-- Score bounds at the scoring node: every failure path forces 0, and a
parsed response contributes its own score (or 0 when absent). -/
theorem score_node_score_bounds (o : ChainOutcome ScoreResp)
    (s : ScreeningState)
    (h : ∀ sr n, o = ChainOutcome.ok sr → sr.score = some n →
      0 ≤ n ∧ n ≤ 100) :
    0 ≤ (score_candidate_node o s).score ∧
    (score_candidate_node o s).score ≤ 100 := by
  by_cases he : s.error = ""
  · cases o with
    | transportError m =>
        unfold score_candidate_node score_candidate
        simp [he]
    | parseError m =>
        unfold score_candidate_node score_candidate
        simp [he]
    | ok sr =>
        cases hsc : sr.score with
        | none =>
            unfold score_candidate_node score_candidate
            cases hsr : sr.error <;> simp [he, hsr, hsc]
        | some n =>
            have hb := h sr n rfl hsc
            unfold score_candidate_node score_candidate
            cases hsr : sr.error <;> simp [he, hsr, hsc] <;> omega
  · unfold score_candidate_node
    simp [he]

/-- C3 amended: the final score lies between 0 and 100 provided every score
carried by a successfully parsed scoring response does; the code neither
clamps nor rounds, so an out-of-range oracle score passes through unchanged.
In this embedding scores are integers, so integrality is by construction;
the source stores whatever number the oracle returned. -/
theorem score_in_range_of_bounded_oracle (env : OracleEnv)
    (jd path name : String)
    (h : ∀ sr n, env.scoreO = ChainOutcome.ok sr → sr.score = some n →
      0 ≤ n ∧ n ≤ 100) :
    0 ≤ (process_resume env jd path name).score ∧
    (process_resume env jd path name).score ≤ 100 := by
  have e1 : (process_resume env jd path name).score =
      (runWorkflow env (initialState jd path name)).score := rfl
  rw [e1, (runWorkflow_core_fields env (initialState jd path name)).1]
  exact score_node_score_bounds env.scoreO _ h

/-- A concrete instance of the C3 amended theorem. -/
theorem score_in_range_of_bounded_oracle_witness :
    0 ≤ (process_resume
      { doc := DocOutcome.ok "resume text",
        extractO := ChainOutcome.ok {},
        matchO := ChainOutcome.ok {},
        scoreO := ChainOutcome.ok
          ({ score := some 82, reasons := some ["strong skill match"],
             suggestions := some [] } : ScoreResp) } "jd" "p" "c").score ∧
    (process_resume
      { doc := DocOutcome.ok "resume text",
        extractO := ChainOutcome.ok {},
        matchO := ChainOutcome.ok {},
        scoreO := ChainOutcome.ok
          ({ score := some 82, reasons := some ["strong skill match"],
             suggestions := some [] } : ScoreResp) } "jd" "p" "c").score ≤
      100 :=
  score_in_range_of_bounded_oracle _ "jd" "p" "c" (by
    intro sr n hok hs
    have hsr :
        ({ score := some 82, reasons := some ["strong skill match"],
           suggestions := some [] } : ScoreResp) = sr := by
      injection hok
    rw [← hsr] at hs
    simp at hs
    omega)

/-- The batch loop produces one record per input file. -/
theorem processFilesFrom_length (jd : String) (env : Nat → OracleEnv) :
    ∀ (k : Nat) (files : List (String × String)),
      (processFilesFrom jd env k files).length = files.length := by
  intro k files
  induction files generalizing k with
  | nil => rfl
  | cons f rest ih =>
      obtain ⟨name, content⟩ := f
      simp [processFilesFrom, ih]

/-- The i-th record of the batch loop started at offset k comes from the i-th
input file, processed with the environment at index k + i. -/
theorem processFilesFrom_getElem (jd : String) (env : Nat → OracleEnv) :
    ∀ (files : List (String × String)) (k i : Nat),
      (processFilesFrom jd env k files)[i]? =
        (files[i]?).map (fun p => process_resume (env (k + i)) jd p.2 p.1) := by
  intro files
  induction files with
  | nil => intro k i; simp [processFilesFrom]
  | cons f rest ih =>
      intro k i
      obtain ⟨name, content⟩ := f
      cases i with
      | zero => simp [processFilesFrom]
      | succ j =>
          simp only [processFilesFrom, List.getElem?_cons_succ, ih]
          have : k + 1 + j = k + (j + 1) := by omega
          rw [this]

/-- C9: the batch runner returns exactly one record per input pair, in input
order; the i-th record is the projection of the run of the i-th resume under its
own environment (failed runs included), and carries the candidate name of
that pair. The record type fixes the keys candidate, score, reasons,
suggestions, matches, gaps and error. -/
theorem batch_preserves_order (jd : String)
    (resume_files : List (String × String)) (env : Nat → OracleEnv) :
    (process_multiple_resumes jd resume_files env).length =
      resume_files.length ∧
    ∀ i name content, resume_files[i]? = some (name, content) →
      (process_multiple_resumes jd resume_files env)[i]? =
        some (process_resume (env i) jd content name) ∧
      (process_resume (env i) jd content name).candidate = name := by
  constructor
  · exact processFilesFrom_length jd env 0 resume_files
  · intro i name content hfile
    constructor
    · rw [process_multiple_resumes, processFilesFrom_getElem, hfile]
      simp
    · rfl

/-- A broken document reader for one resume of a batch. -/
def envDocBroken : OracleEnv :=
  { doc := DocOutcome.err "cannot open",
    extractO := ChainOutcome.ok {},
    matchO := ChainOutcome.ok {},
    scoreO := ChainOutcome.ok ({ score := some 60 } : ScoreResp) }

/-- A concrete instance of the C9 theorem: the second resume of a batch whose
runs all fail at the document reader still appears at index 1 under its own
name. -/
theorem batch_preserves_order_witness :
    (process_multiple_resumes "jd" [("A", "a"), ("B", "b")]
      (fun _ => envDocBroken))[1]? =
      some (process_resume envDocBroken "jd" "b" "B") ∧
    (process_resume envDocBroken "jd" "b" "B").candidate = "B" :=
  (batch_preserves_order "jd" [("A", "a"), ("B", "b")]
    (fun _ => envDocBroken)).2 1 "B" "b" (by decide)

/-- C10: the oracle wrappers are total functions of the call outcome — every
failure, transport or parse alike, is returned in-band as the default
response carrying the message under the error key next to default-valued
data fields: empty skills, experience and education lists for extraction,
empty matches and gaps for matching, and score 0 with the placeholder reason
and empty suggestions for scoring. -/
theorem oracle_wrappers_inband_defaults (resume_text jd m : String)
    (rd : ExtractResp) (md : MatchResp) :
    extract_resume_data resume_text (ChainOutcome.transportError m) =
      ({ skills := some [], experience := some [], education := some [],
         error := some m } : ExtractResp) ∧
    extract_resume_data resume_text (ChainOutcome.parseError m) =
      ({ skills := some [], experience := some [], education := some [],
         error := some m } : ExtractResp) ∧
    match_to_jd jd rd (ChainOutcome.transportError m) =
      ({ matches_ := some [], gaps := some [], error := some m } :
        MatchResp) ∧
    match_to_jd jd rd (ChainOutcome.parseError m) =
      ({ matches_ := some [], gaps := some [], error := some m } :
        MatchResp) ∧
    score_candidate jd rd md (ChainOutcome.transportError m) =
      ({ score := some 0, reasons := some ["Error in scoring"],
         suggestions := some [], error := some m } : ScoreResp) ∧
    score_candidate jd rd md (ChainOutcome.parseError m) =
      ({ score := some 0, reasons := some ["Error in scoring"],
         suggestions := some [], error := some m } : ScoreResp) :=
  ⟨rfl, rfl, rfl, rfl, rfl, rfl⟩
